import Mathlib

/-!
Verification of the agent-evaluation harness: the three dataset task
functions (webvoyager, onlineMind2Web, gaia), the onlineMind2Web testcase
builder, and the screenshot ring buffer. The TypeScript sources are embedded
shallowly: environment variables and the loose JS values they carry become
Option String, external effects (page navigation, agent execution, the judge
call) become an oracle record plus an explicit action trace, and JS truthiness
and Number conversion are modelled explicitly.
-/

namespace StageHand

/-- JS falsiness of an optional string value (undefined or the empty string),
as used by the guards `!params.web`, `!params.ques`, `!params.website`,
`!params.confirmed_task`. -/
def jsFalsy : Option String → Bool
  | none => true
  | some s => s.isEmpty

/-- Truthiness of an env var in a JS conditional such as
`process.env.EVAL_MAX_K ? ... : ...`: set and non-empty. -/
def envTruthy : Option String → Bool
  | none => false
  | some s => !s.isEmpty

/-- Value of an unsigned decimal digit string. -/
def digitsVal (cs : List Char) : Nat :=
  cs.foldl (fun a c => a * 10 + (c.toNat - 48)) 0

/-- Decimal natural literal, or none when the characters are empty or not all
digits. -/
def decInt? (cs : List Char) : Option Int :=
  if cs ≠ [] ∧ cs.all Char.isDigit then some (Int.ofNat (digitsVal cs)) else none

/-- Whitespace stripped by the Number conversion. -/
def isJsWhitespace (c : Char) : Bool :=
  c = ' ' || c = '\t' || c = '\n' || c = '\r'

/-- Strip leading and trailing whitespace from a character list. -/
def trimChars (cs : List Char) : List Char :=
  ((cs.dropWhile isJsWhitespace).reverse.dropWhile isJsWhitespace).reverse

/-- Model of the JavaScript Number(x) conversion on an optional string,
restricted to the fragment the harness meets: undefined converts to NaN
(represented as none), a whitespace-only string to 0, a trimmed
optional-sign decimal integer literal to its value, and anything else to
NaN. Fractional, hexadecimal and exponent literals are outside the
modelled fragment. -/
def jsNumber : Option String → Option Int
  | none => none
  | some s =>
    match trimChars s.toList with
    | [] => some 0
    | '-' :: rest => (decInt? rest).map (fun n => -n)
    | '+' :: rest => decInt? rest
    | cs => decInt? cs

/-- The step-budget expression `Number(process.env.AGENT_EVAL_MAX_STEPS) || d`
shared by webvoyager.ts line 72 (d = 75), onlineMind2Web line 75 (d = 80) and
gaia line 67 (d = 50): NaN and 0 are falsy, so they fall through to the
dataset default. -/
def computeMaxSteps (stepsEnv : Option String) (dflt : Int) : Int :=
  match jsNumber stepsEnv with
  | none => dflt
  | some n => if n = 0 then dflt else n

/-- The case-limit expression of buildOnlineMind2WebTestcases:
`process.env.EVAL_MAX_K ? Number(EVAL_MAX_K) :
 process.env.EVAL_ONLINEMIND2WEB_LIMIT ? Number(EVAL_ONLINEMIND2WEB_LIMIT) : 25`. -/
def maxCasesOf (k lim : Option String) : Option Int :=
  if envTruthy k then jsNumber k
  else if envTruthy lim then jsNumber lim
  else some 25

/-- Whether pat is a prefix of l, compared characterwise. -/
def startsWithList : List Char → List Char → Bool
  | _, [] => true
  | [], _ :: _ => false
  | c :: cs, p :: ps => c = p && startsWithList cs ps

/-- Whether pat occurs as a contiguous run inside l. -/
def hasSubstrList : List Char → List Char → Bool
  | [], pat => pat.isEmpty
  | c :: cs, pat => startsWithList (c :: cs) pat || hasSubstrList cs pat

/-- The JS `haystack.includes(needle)` substring test. -/
def containsSubstr (s pat : String) : Bool :=
  hasSubstrList s.toList pat.toList

/-- Rendering of an optional JS value inside a template literal: undefined
prints as the word undefined. -/
def renderOpt : Option String → String
  | none => "undefined"
  | some s => s

/-- Modelled from the spec: the ScreenshotCollector class is imported from
evals/utils/ScreenshotCollector, a file not present in the repository slice;
the spec describes it as a fixed-capacity FIFO ring buffer that evicts the
oldest frame on overflow. Frames are modelled as strings. -/
structure ScreenshotCollector where
  maxScreenshots : Nat
  buffer : List String
deriving DecidableEq, Repr

/-- Modelled from the spec: a fresh collector with an empty buffer. -/
def ScreenshotCollector.new (n : Nat) : ScreenshotCollector :=
  { maxScreenshots := n, buffer := [] }

/-- Modelled from the spec: one capture step appends the new frame and, when
the capacity is exceeded, evicts the oldest frame. -/
def ScreenshotCollector.capture (c : ScreenshotCollector) (frame : String) :
    ScreenshotCollector :=
  let b := c.buffer ++ [frame]
  { c with buffer := if c.maxScreenshots < b.length then b.tail else b }

/-- Capturing a whole sequence of frames in order. -/
def ScreenshotCollector.captureAll (c : ScreenshotCollector)
    (frames : List String) : ScreenshotCollector :=
  frames.foldl ScreenshotCollector.capture c

/-- Modelled from the spec: stop() hands the buffer contents to the caller. -/
def ScreenshotCollector.stop (c : ScreenshotCollector) : List String :=
  c.buffer

/-- Effects a task function performs on the world, in order: page.goto,
agent.execute (with its maxSteps budget), evaluator.ask (with its question). -/
inductive Action where
  | goto : String → Action
  | agentExecute : String → Int → Action
  | evaluatorAsk : String → Action
deriving DecidableEq, Repr

/-- Verdict of the judge: the evaluation field is the literal YES or NO, the
reasoning a free string. -/
structure Verdict where
  evaluation : String
  reasoning : String
deriving DecidableEq, Repr

/-- Terminal output of agent.execute; message may be absent. -/
structure AgentResult where
  message : Option String
deriving DecidableEq, Repr

/-- Outcomes of the three external calls a task run makes, fixed up front:
each either succeeds with its value or fails with an error string. -/
structure Oracle where
  gotoResult : Except String Unit
  agentResult : Except String AgentResult
  askResult : Except String Verdict
deriving Repr

/-- Errors a task run can propagate to the caller, tagged by origin. The
accessDenied constructor is the `throw new Error("access denied")` of
onlineMind2Web. -/
inductive TaskError where
  | gotoFailed : String → TaskError
  | agentFailed : String → TaskError
  | judgeFailed : String → TaskError
  | accessDenied : TaskError
deriving DecidableEq, Repr

/-- The structured result record a task returns (the success field embeds the
sources _success field). Pass-through fields that carry no verified content
(debugUrl, sessionUrl, logs, execution_time) are omitted. -/
structure TaskResult where
  success : Bool
  error : Option String := none
  reasoning : Option String := none
  finalAnswer : Option String := none
  screenshotCount : Option Nat := none
  taskLevel : Option String := none
deriving DecidableEq, Repr

/-- Params of the webvoyager task, each field an optional JS string. -/
structure WebvoyagerParams where
  id : Option String := none
  web : Option String := none
  ques : Option String := none
  web_name : Option String := none
deriving DecidableEq, Repr

/-- Params of the onlineMind2Web task. -/
structure OnlineMind2WebParams where
  task_id : Option String := none
  confirmed_task : Option String := none
  website : Option String := none
  reference_length : Option Int := none
  level : Option String := none
deriving DecidableEq, Repr

/-- Params of the gaia task; expected is read from the params record for the
judge question. -/
structure GaiaParams where
  id : Option String := none
  level : Option Int := none
  web : Option String := none
  ques : Option String := none
  expected : Option String := none
deriving DecidableEq, Repr

/-- Rendering of webvoyager params standing in for the JSON.stringify call in
the missing-params error message. -/
def renderWebvoyagerParams (p : WebvoyagerParams) : String :=
  "id: " ++ renderOpt p.id ++ ", web: " ++ renderOpt p.web ++
    ", ques: " ++ renderOpt p.ques ++ ", web_name: " ++ renderOpt p.web_name

/-- Rendering of onlineMind2Web params standing in for JSON.stringify. -/
def renderOnlineMind2WebParams (p : OnlineMind2WebParams) : String :=
  "task_id: " ++ renderOpt p.task_id ++ ", confirmed_task: " ++
    renderOpt p.confirmed_task ++ ", website: " ++ renderOpt p.website

/-- Rendering of gaia params standing in for JSON.stringify. -/
def renderGaiaParams (p : GaiaParams) : String :=
  "id: " ++ renderOpt p.id ++ ", web: " ++ renderOpt p.web ++
    ", ques: " ++ renderOpt p.ques

/-- The model-unsupported error message shared verbatim by the three tasks:
`Model X is not supported for agent tasks. Supported models: ...` over the
keys of modelToAgentProviderMap (the registry, a model-to-provider list
imported from lib/agent/AgentProvider and passed in here as a parameter). -/
def unsupportedModelMsg (registry : List (String × String)) (modelName : String) :
    String :=
  "Model " ++ modelName ++
    " is not supported for agent tasks. Supported models: " ++
    String.intercalate ", " (registry.map Prod.fst)

/-- Embedding of the webvoyager eval function (src/evals/tasks/agent/webvoyager.ts).
Control flow in source order: missing-params guard, page.goto, registry
check, agent.execute with maxSteps `Number(AGENT_EVAL_MAX_STEPS) || 75`,
screenshot collection with capacity 8 over the frames the background loop
captured, evaluator.ask, then the result record. The catch block rethrows,
so a failing external call propagates as an error value. -/
def webvoyager (stepsEnv : Option String) (registry : List (String × String))
    (modelName : String) (p : WebvoyagerParams) (o : Oracle)
    (frames : List String) : Except TaskError TaskResult × List Action :=
  if jsFalsy p.web || jsFalsy p.ques then
    (Except.ok
      { success := false,
        error := some ("Missing WebVoyager params (web, ques). Got: " ++
          renderWebvoyagerParams p) },
     [])
  else
    let web := p.web.getD ""
    let ques := p.ques.getD ""
    match o.gotoResult with
    | Except.error e => (Except.error (TaskError.gotoFailed e), [Action.goto web])
    | Except.ok _ =>
      if ¬ (registry.map Prod.fst).contains modelName then
        (Except.ok
          { success := false,
            error := some (unsupportedModelMsg registry modelName) },
         [Action.goto web])
      else
        let maxSteps := computeMaxSteps stepsEnv 75
        match o.agentResult with
        | Except.error e =>
          (Except.error (TaskError.agentFailed e),
           [Action.goto web, Action.agentExecute ques maxSteps])
        | Except.ok ar =>
          let screenshots := ((ScreenshotCollector.new 8).captureAll frames).stop
          let question := "Did the agent successfully complete this task: \"" ++
            ques ++ "\"?"
          match o.askResult with
          | Except.error e =>
            (Except.error (TaskError.judgeFailed e),
             [Action.goto web, Action.agentExecute ques maxSteps,
              Action.evaluatorAsk question])
          | Except.ok v =>
            (Except.ok
              { success := v.evaluation == "YES",
                reasoning := some v.reasoning,
                finalAnswer := ar.message,
                screenshotCount := some screenshots.length },
             [Action.goto web, Action.agentExecute ques maxSteps,
              Action.evaluatorAsk question])

/-- Embedding of the onlineMind2Web eval function (src/unnamed/part_001).
Same shape as webvoyager with website/confirmed_task params, default budget
80, and the access-denied reinterpretation: a NO verdict whose reasoning
contains the phrase access denied is thrown instead of returned. -/
def onlineMind2Web (stepsEnv : Option String)
    (registry : List (String × String)) (modelName : String)
    (p : OnlineMind2WebParams) (o : Oracle) (frames : List String) :
    Except TaskError TaskResult × List Action :=
  if jsFalsy p.website || jsFalsy p.confirmed_task then
    (Except.ok
      { success := false,
        error := some ("Missing onlineMind2Web params (website, confirmed_task). Got: " ++
          renderOnlineMind2WebParams p) },
     [])
  else
    let website := p.website.getD ""
    let task := p.confirmed_task.getD ""
    match o.gotoResult with
    | Except.error e => (Except.error (TaskError.gotoFailed e), [Action.goto website])
    | Except.ok _ =>
      if ¬ (registry.map Prod.fst).contains modelName then
        (Except.ok
          { success := false,
            error := some (unsupportedModelMsg registry modelName) },
         [Action.goto website])
      else
        let maxSteps := computeMaxSteps stepsEnv 80
        match o.agentResult with
        | Except.error e =>
          (Except.error (TaskError.agentFailed e),
           [Action.goto website, Action.agentExecute task maxSteps])
        | Except.ok ar =>
          let screenshots := ((ScreenshotCollector.new 8).captureAll frames).stop
          let question := "Did the agent successfully complete this task: \"" ++
            task ++ "\"?"
          match o.askResult with
          | Except.error e =>
            (Except.error (TaskError.judgeFailed e),
             [Action.goto website, Action.agentExecute task maxSteps,
              Action.evaluatorAsk question])
          | Except.ok v =>
            if containsSubstr v.reasoning "access denied" && v.evaluation == "NO" then
              (Except.error TaskError.accessDenied,
               [Action.goto website, Action.agentExecute task maxSteps,
                Action.evaluatorAsk question])
            else
              (Except.ok
                { success := v.evaluation == "YES",
                  reasoning := some v.reasoning,
                  finalAnswer := ar.message,
                  screenshotCount := some screenshots.length,
                  taskLevel := p.level },
               [Action.goto website, Action.agentExecute task maxSteps,
                Action.evaluatorAsk question])

/-- Embedding of the gaia eval function (src/unnamed/part_002). Missing-params
guard on web/ques, page.goto, registry check, agent.execute with default
budget 50, then a screenshot-free evaluator.ask comparing the final message
against the expected answer; the inner catch logs and rethrows the judge
failure, and the finally clause only closes the session. -/
def gaia (stepsEnv : Option String) (registry : List (String × String))
    (modelName : String) (p : GaiaParams) (o : Oracle) :
    Except TaskError TaskResult × List Action :=
  if jsFalsy p.web || jsFalsy p.ques then
    (Except.ok
      { success := false,
        error := some ("Missing GAIA params (web, ques). Got: " ++
          renderGaiaParams p) },
     [])
  else
    let web := p.web.getD ""
    let ques := p.ques.getD ""
    match o.gotoResult with
    | Except.error e => (Except.error (TaskError.gotoFailed e), [Action.goto web])
    | Except.ok _ =>
      if ¬ (registry.map Prod.fst).contains modelName then
        (Except.ok
          { success := false,
            error := some (unsupportedModelMsg registry modelName) },
         [Action.goto web])
      else
        let maxSteps := computeMaxSteps stepsEnv 50
        match o.agentResult with
        | Except.error e =>
          (Except.error (TaskError.agentFailed e),
           [Action.goto web, Action.agentExecute ques maxSteps])
        | Except.ok ar =>
          let question := "Did the agent provide the expected answer: \"" ++
            renderOpt p.expected ++ "\"?"
          match o.askResult with
          | Except.error e =>
            (Except.error (TaskError.judgeFailed e),
             [Action.goto web, Action.agentExecute ques maxSteps,
              Action.evaluatorAsk question])
          | Except.ok v =>
            (Except.ok
              { success := v.evaluation == "YES",
                reasoning := some v.reasoning,
                finalAnswer := ar.message },
             [Action.goto web, Action.agentExecute ques maxSteps,
              Action.evaluatorAsk question])

/-- A validated onlineMind2Web dataset row (src/unnamed/part_003 Mind2WebRow),
after the isMind2WebRow guard: the three string fields are present. -/
structure Mind2WebRow where
  task_id : String
  confirmed_task : String
  website : String
  reference_length : Option Int := none
  level : Option String := none
deriving DecidableEq, Repr

/-- One entry of tasksConfig (imported from evals/taskConfig, passed in as a
parameter): a task name and its configured categories. -/
structure TaskCfg where
  name : String
  categories : List String
deriving DecidableEq, Repr

/-- The Testcase record the builder produces, restricted to the verified
fields. -/
structure Testcase where
  inputName : String
  modelName : String
  params : OnlineMind2WebParams
  tags : List String
  testLabel : String
  category : String
  categories : List String
  dataset : String
  taskId : String
  difficulty : Option String
  website : String
  expected : Bool
deriving DecidableEq, Repr

/-- The fixed task name of the onlineMind2Web builder. -/
def onlineMind2WebTaskName : String := "agent/onlineMind2Web"

/-- The category lookup `tasksConfig.find(t => t.name === input.name)?.categories || []`. -/
def taskCategoriesFor (cfg : List TaskCfg) (name : String) : List String :=
  match cfg.find? (fun t => t.name == name) with
  | some t => t.categories
  | none => []

/-- The fallback `taskCategories[0] || "agent"`: an absent or empty (falsy)
first category yields the sentinel agent. -/
def categoryOf (cats : List String) : String :=
  match cats.head? with
  | none => "agent"
  | some c => if c.isEmpty then "agent" else c

/-- One Testcase of the builder loop body, for a model and a row. -/
def mkOnlineMind2WebTestcase (cfg : List TaskCfg) (model : String)
    (row : Mind2WebRow) : Testcase :=
  let cats := taskCategoriesFor cfg onlineMind2WebTaskName
  { inputName := onlineMind2WebTaskName,
    modelName := model,
    params :=
      { task_id := some row.task_id,
        confirmed_task := some row.confirmed_task,
        website := some row.website,
        reference_length := row.reference_length,
        level := row.level },
    tags := [model, "mind2web"],
    testLabel := onlineMind2WebTaskName ++ ":" ++ row.task_id,
    category := categoryOf cats,
    categories := cats,
    dataset := "onlineMind2Web",
    taskId := row.task_id,
    difficulty := row.level,
    website := row.website,
    expected := true }

/-- Embedding of the double loop of buildOnlineMind2WebTestcases
(src/unnamed/part_003): for each model, for each sampled row, push one
testcase. File reading and sampling happen before this loop; the rows
parameter is the sampled row list. -/
def buildOnlineMind2WebTestcases (cfg : List TaskCfg) (models : List String)
    (rows : List Mind2WebRow) : List Testcase :=
  models.foldl
    (fun acc model =>
      rows.foldl (fun acc2 row => acc2 ++ [mkOnlineMind2WebTestcase cfg model row]) acc)
    []

/-- Dropping before or after an append agree once the indices are adjusted. -/
theorem drop_append_drop {α : Type} (l fs : List α) (k m : Nat)
    (h : k ≤ l.length) :
    (l.drop k ++ fs).drop m = (l ++ fs).drop (k + m) := by
  rw [List.drop_append_eq_append_drop, List.drop_append_eq_append_drop,
    List.drop_drop, List.length_drop]
  have : m - (l.length - k) = k + m - l.length := by omega
  rw [this, Nat.add_comm k m]

/-- Running the capture loop from any in-capacity buffer keeps exactly the
last maxScreenshots elements of buffer-then-frames. -/
theorem captureAll_buffer (N : Nat) (b fs : List String)
    (h : b.length ≤ N) :
    (ScreenshotCollector.captureAll ⟨N, b⟩ fs).buffer =
      (b ++ fs).drop (b.length + fs.length - N) := by
  induction fs generalizing b with
  | nil =>
    simp only [ScreenshotCollector.captureAll, List.foldl_nil, List.append_nil,
      List.length_nil, Nat.add_zero]
    rw [Nat.sub_eq_zero_of_le h, List.drop_zero]
  | cons f fs ih =>
    have hcap : ScreenshotCollector.capture ⟨N, b⟩ f =
        ⟨N, (b ++ [f]).drop (b.length + 1 - N)⟩ := by
      by_cases hlt : N < (b ++ [f]).length
      · have hlt' : N < b.length + 1 := by simpa using hlt
        have h1 : b.length + 1 - N = 1 := by omega
        simp [ScreenshotCollector.capture, hlt', h1, List.drop_one]
      · have hlt' : ¬ N < b.length + 1 := by simpa using hlt
        have h0 : b.length + 1 - N = 0 := by omega
        simp [ScreenshotCollector.capture, hlt', h0]
    have hlen : ((b ++ [f]).drop (b.length + 1 - N)).length ≤ N := by
      simp
      omega
    show (ScreenshotCollector.captureAll
      (ScreenshotCollector.capture ⟨N, b⟩ f) fs).buffer = _
    rw [hcap, ih _ hlen]
    rw [drop_append_drop (b ++ [f]) fs (b.length + 1 - N) _ (by simp)]
    have hl : (b ++ [f]) ++ fs = b ++ f :: fs := by simp
    rw [hl]
    congr 1
    simp only [List.length_drop, List.length_append, List.length_cons,
      List.length_nil]
    omega

/-- Pushing each mapped element onto an accumulator is append of the map. -/
theorem foldl_push_eq_append_map {α β : Type} (f : α → β) (acc : List β)
    (l : List α) :
    l.foldl (fun a x => a ++ [f x]) acc = acc ++ l.map f := by
  induction l generalizing acc with
  | nil => simp
  | cons x xs ih => simp [ih]

/-- The builder loop is the flat cross product of models and rows. -/
theorem build_eq_flatMap (cfg : List TaskCfg) (models : List String)
    (rows : List Mind2WebRow) :
    buildOnlineMind2WebTestcases cfg models rows =
      models.flatMap (fun m => rows.map (mkOnlineMind2WebTestcase cfg m)) := by
  suffices h : ∀ (ms : List String) (acc : List Testcase),
      ms.foldl
        (fun acc model =>
          rows.foldl (fun acc2 row => acc2 ++ [mkOnlineMind2WebTestcase cfg model row]) acc)
        acc =
        acc ++ ms.flatMap (fun m => rows.map (mkOnlineMind2WebTestcase cfg m)) by
    simpa [buildOnlineMind2WebTestcases] using h models []
  intro ms
  induction ms with
  | nil => simp
  | cons m ms ih =>
    intro acc
    simp only [List.foldl_cons]
    rw [ih, foldl_push_eq_append_map (mkOnlineMind2WebTestcase cfg m) acc rows,
      List.flatMap_cons, List.append_assoc]

/-- C5: for every capacity N (maxScreenshots) and every sequence of M > N
captured frames, the buffer returned by stop() has length exactly N and
equals the last N captured frames in capture order, and its length never
exceeds N at any point of the capture sequence. -/
theorem screenshot_buffer_keeps_last_n (N : Nat) (frames : List String)
    (h : N < frames.length) :
    (((ScreenshotCollector.new N).captureAll frames).stop).length = N ∧
    ((ScreenshotCollector.new N).captureAll frames).stop =
      frames.drop (frames.length - N) ∧
    (∀ i : Nat,
      (((ScreenshotCollector.new N).captureAll (frames.take i)).stop).length ≤ N) := by
  have key : ∀ fs : List String,
      ((ScreenshotCollector.new N).captureAll fs).stop =
        fs.drop (fs.length - N) := by
    intro fs
    have hb := captureAll_buffer N [] fs (by simp)
    simpa [ScreenshotCollector.new, ScreenshotCollector.stop] using hb
  refine ⟨?_, key frames, ?_⟩
  · rw [key frames]
    simp only [List.length_drop]
    omega
  · intro i
    rw [key (frames.take i)]
    simp only [List.length_drop, List.length_take]
    omega

/-- Witness for C5 at the example of the spec: capacity 3 while capturing
four frames in order keeps the last three. -/
theorem screenshot_buffer_keeps_last_n_witness :
    (((ScreenshotCollector.new 3).captureAll ["a", "b", "c", "d"]).stop).length = 3 ∧
    ((ScreenshotCollector.new 3).captureAll ["a", "b", "c", "d"]).stop =
      ["a", "b", "c", "d"].drop (["a", "b", "c", "d"].length - 3) ∧
    (∀ i : Nat,
      (((ScreenshotCollector.new 3).captureAll
        (["a", "b", "c", "d"].take i)).stop).length ≤ 3) :=
  screenshot_buffer_keeps_last_n 3 ["a", "b", "c", "d"] (by decide)

/-- C6: the builder yields exactly the cross product of rows and models,
row order preserved within each model group, with length models times rows,
and an empty model list yields the empty sequence. -/
theorem build_is_cross_product :
    ∀ (cfg : List TaskCfg) (models : List String) (rows : List Mind2WebRow),
      buildOnlineMind2WebTestcases cfg models rows =
        models.flatMap (fun m => rows.map (mkOnlineMind2WebTestcase cfg m)) ∧
      (buildOnlineMind2WebTestcases cfg models rows).length =
        models.length * rows.length ∧
      buildOnlineMind2WebTestcases cfg [] rows = [] := by
  intro cfg models rows
  refine ⟨build_eq_flatMap cfg models rows, ?_, by simp [buildOnlineMind2WebTestcases]⟩
  rw [build_eq_flatMap]
  induction models with
  | nil => simp
  | cons m ms ih =>
    simp only [List.flatMap_cons, List.length_append, List.length_map,
      List.length_cons, ih, Nat.succ_mul, Nat.add_comm]

/-- C7: when tasksConfig maps no categories to the onlineMind2Web task name,
every built testcase carries the sentinel category agent (and the builder
still succeeds, being total). -/
theorem default_category_is_agent
    (cfg : List TaskCfg) (models : List String) (rows : List Mind2WebRow)
    (tc : Testcase)
    (hcfg : cfg.find? (fun t => t.name == onlineMind2WebTaskName) = none)
    (htc : tc ∈ buildOnlineMind2WebTestcases cfg models rows) :
    tc.category = "agent" := by
  rw [build_eq_flatMap] at htc
  rcases List.mem_flatMap.mp htc with ⟨m, _, hm⟩
  rcases List.mem_map.mp hm with ⟨row, _, rfl⟩
  simp [mkOnlineMind2WebTestcase, taskCategoriesFor, categoryOf, hcfg]

/-- Witness for C7: with an empty tasksConfig the single built testcase has
category agent. -/
theorem default_category_is_agent_witness :
    (mkOnlineMind2WebTestcase [] "m1"
      { task_id := "t1", confirmed_task := "find price",
        website := "https://example.com" }).category = "agent" :=
  default_category_is_agent [] ["m1"]
    [{ task_id := "t1", confirmed_task := "find price",
       website := "https://example.com" }]
    (mkOnlineMind2WebTestcase [] "m1"
      { task_id := "t1", confirmed_task := "find price",
        website := "https://example.com" })
    rfl (by simp [buildOnlineMind2WebTestcases])

/-- C9: in the onlineMind2Web case limit, a set EVAL_MAX_K takes precedence,
a set EVAL_ONLINEMIND2WEB_LIMIT is used when EVAL_MAX_K is absent, and the
default is 25 when neither is set. -/
theorem maxCases_precedence :
    (∀ ks ls : String, ks ≠ "" → ls ≠ "" →
      maxCasesOf (some ks) (some ls) = jsNumber (some ks)) ∧
    (∀ ls : String, ls ≠ "" → maxCasesOf none (some ls) = jsNumber (some ls)) ∧
    maxCasesOf none none = some 25 := by
  refine ⟨?_, ?_, rfl⟩
  · intro ks ls hk _
    have hne : ¬ (ks.isEmpty = true) := fun hh => hk ((String.isEmpty_iff ks).mp hh)
    have hts : envTruthy (some ks) = true := by
      simpa [envTruthy] using hne
    simp [maxCasesOf, hts]
  · intro ls hl
    have hne : ¬ (ls.isEmpty = true) := fun hh => hl ((String.isEmpty_iff ls).mp hh)
    have hts : envTruthy (some ls) = true := by
      simpa [envTruthy] using hne
    have henv : envTruthy none = false := rfl
    simp [maxCasesOf, henv, hts]

/-- Witness for C9 at concrete env values 5 and 7. -/
theorem maxCases_precedence_witness :
    maxCasesOf (some "5") (some "7") = jsNumber (some "5") ∧
    maxCasesOf none (some "7") = jsNumber (some "7") :=
  ⟨maxCases_precedence.1 "5" "7" (by decide) (by decide),
   maxCases_precedence.2.1 "7" (by decide)⟩

/-- C10: an AGENT_EVAL_MAX_STEPS override converting to 0 or to NaN is falsy
after numeric conversion, so the logical-or yields the dataset default. -/
theorem maxSteps_zero_or_nan_override_uses_default :
    ∀ (s : String) (d : Int),
      jsNumber (some s) = some 0 ∨ jsNumber (some s) = none →
      computeMaxSteps (some s) d = d := by
  intro s d h
  rcases h with h | h <;> simp [computeMaxSteps, h]

/-- Witness for C10 at the override strings 0 and abc. -/
theorem maxSteps_zero_or_nan_override_uses_default_witness :
    computeMaxSteps (some "0") 75 = 75 ∧ computeMaxSteps (some "abc") 50 = 50 :=
  ⟨maxSteps_zero_or_nan_override_uses_default "0" 75 (Or.inl (by decide)),
   maxSteps_zero_or_nan_override_uses_default "abc" 50 (Or.inr (by decide))⟩

/-- C1: a task whose dataset params are missing required fields returns a
structured result with success false and an error message, with an empty
effect trace: the page is never navigated and the agent adapter is never
invoked, for each of the three task functions. -/
theorem missing_params_short_circuit :
    (∀ env reg m (p : WebvoyagerParams) o fr,
      (jsFalsy p.web || jsFalsy p.ques) = true →
      ∃ msg, webvoyager env reg m p o fr =
        (Except.ok { success := false, error := some msg }, [])) ∧
    (∀ env reg m (p : OnlineMind2WebParams) o fr,
      (jsFalsy p.website || jsFalsy p.confirmed_task) = true →
      ∃ msg, onlineMind2Web env reg m p o fr =
        (Except.ok { success := false, error := some msg }, [])) ∧
    (∀ env reg m (p : GaiaParams) o,
      (jsFalsy p.web || jsFalsy p.ques) = true →
      ∃ msg, gaia env reg m p o =
        (Except.ok { success := false, error := some msg }, [])) := by
  refine ⟨fun env reg m p o fr h =>
      ⟨"Missing WebVoyager params (web, ques). Got: " ++ renderWebvoyagerParams p, ?_⟩,
    fun env reg m p o fr h =>
      ⟨"Missing onlineMind2Web params (website, confirmed_task). Got: " ++
        renderOnlineMind2WebParams p, ?_⟩,
    fun env reg m p o h =>
      ⟨"Missing GAIA params (web, ques). Got: " ++ renderGaiaParams p, ?_⟩⟩
  · simp [webvoyager, h]
  · simp [onlineMind2Web, h]
  · simp [gaia, h]

/-- Witness for C1: with empty params each task returns the structured
failure and performs no effect. -/
theorem missing_params_short_circuit_witness :
    (∃ msg, webvoyager none [] "m"
      {}
      { gotoResult := Except.ok (), agentResult := Except.ok { message := none },
        askResult := Except.ok { evaluation := "NO", reasoning := "" } } [] =
      (Except.ok { success := false, error := some msg }, [])) ∧
    (∃ msg, onlineMind2Web none [] "m"
      {}
      { gotoResult := Except.ok (), agentResult := Except.ok { message := none },
        askResult := Except.ok { evaluation := "NO", reasoning := "" } } [] =
      (Except.ok { success := false, error := some msg }, [])) ∧
    (∃ msg, gaia none [] "m"
      {}
      { gotoResult := Except.ok (), agentResult := Except.ok { message := none },
        askResult := Except.ok { evaluation := "NO", reasoning := "" } } =
      (Except.ok { success := false, error := some msg }, [])) :=
  ⟨missing_params_short_circuit.1 none [] "m" {} _ [] rfl,
   missing_params_short_circuit.2.1 none [] "m" {} _ [] rfl,
   missing_params_short_circuit.2.2 none [] "m" {} _ rfl⟩

/-- C2 counterexample: the webvoyager task is screenshot-judged, yet on a NO
verdict whose reasoning contains the access-denial phrase it returns a plain
negative verdict result instead of surfacing a distinct failure. -/
theorem webvoyager_access_denied_plain_result :
    (webvoyager none [("computer-use-preview", "openai")] "computer-use-preview"
      { web := some "https://example.com", ques := some "buy a book" }
      { gotoResult := Except.ok (),
        agentResult := Except.ok { message := some "done" },
        askResult := Except.ok
          { evaluation := "NO", reasoning := "access denied by the site" } }
      []).fst =
      Except.ok
        { success := false, reasoning := some "access denied by the site",
          finalAnswer := some "done", screenshotCount := some 0 } := by
  rfl

/-- C2 (amended): of the screenshot-judged tasks, onlineMind2Web converts a
NO verdict whose reasoning contains the access-denial phrase into a thrown
access-denied failure instead of a plain negative verdict result; webvoyager
returns the plain result. -/
theorem onlineMind2Web_access_denied_thrown :
    ∀ env reg m (p : OnlineMind2WebParams) o fr (v : Verdict) ar,
      (jsFalsy p.website || jsFalsy p.confirmed_task) = false →
      o.gotoResult = Except.ok () →
      m ∈ reg.map Prod.fst →
      o.agentResult = Except.ok ar →
      o.askResult = Except.ok v →
      containsSubstr v.reasoning "access denied" = true →
      v.evaluation = "NO" →
      (onlineMind2Web env reg m p o fr).fst = Except.error TaskError.accessDenied := by
  intro env reg m p o fr v ar h1 h2 h3 h4 h5 h6 h7
  simp [onlineMind2Web, h1, h2, h3, h4, h5, h6, h7]

/-- Witness for the amended C2 at a concrete denied run. -/
theorem onlineMind2Web_access_denied_thrown_witness :
    (onlineMind2Web none [("computer-use-preview", "openai")] "computer-use-preview"
      { website := some "https://example.com", confirmed_task := some "buy a book" }
      { gotoResult := Except.ok (),
        agentResult := Except.ok { message := some "done" },
        askResult := Except.ok
          { evaluation := "NO", reasoning := "access denied by the site" } }
      []).fst = Except.error TaskError.accessDenied :=
  onlineMind2Web_access_denied_thrown none [("computer-use-preview", "openai")]
    "computer-use-preview" _ _ []
    { evaluation := "NO", reasoning := "access denied by the site" }
    { message := some "done" }
    rfl rfl (by decide) rfl rfl (by decide) rfl

/-- C3: a failing judge call propagates out of each task function as a judge
failure; it is never converted into a returned NO or failed verdict
result. -/
theorem judge_failure_propagates :
    (∀ env reg m (p : WebvoyagerParams) o fr e ar,
      (jsFalsy p.web || jsFalsy p.ques) = false →
      o.gotoResult = Except.ok () →
      m ∈ reg.map Prod.fst →
      o.agentResult = Except.ok ar →
      o.askResult = Except.error e →
      (webvoyager env reg m p o fr).fst = Except.error (TaskError.judgeFailed e)) ∧
    (∀ env reg m (p : OnlineMind2WebParams) o fr e ar,
      (jsFalsy p.website || jsFalsy p.confirmed_task) = false →
      o.gotoResult = Except.ok () →
      m ∈ reg.map Prod.fst →
      o.agentResult = Except.ok ar →
      o.askResult = Except.error e →
      (onlineMind2Web env reg m p o fr).fst = Except.error (TaskError.judgeFailed e)) ∧
    (∀ env reg m (p : GaiaParams) o e ar,
      (jsFalsy p.web || jsFalsy p.ques) = false →
      o.gotoResult = Except.ok () →
      m ∈ reg.map Prod.fst →
      o.agentResult = Except.ok ar →
      o.askResult = Except.error e →
      (gaia env reg m p o).fst = Except.error (TaskError.judgeFailed e)) := by
  refine ⟨fun env reg m p o fr e ar h1 h2 h3 h4 h5 => ?_,
    fun env reg m p o fr e ar h1 h2 h3 h4 h5 => ?_,
    fun env reg m p o e ar h1 h2 h3 h4 h5 => ?_⟩
  · simp [webvoyager, h1, h2, h3, h4, h5]
  · simp [onlineMind2Web, h1, h2, h3, h4, h5]
  · simp [gaia, h1, h2, h3, h4, h5]

/-- Witness for C3: a concrete failing judge call propagates from each task. -/
theorem judge_failure_propagates_witness :
    (webvoyager none [("computer-use-preview", "openai")] "computer-use-preview"
      { web := some "https://example.com", ques := some "q" }
      { gotoResult := Except.ok (), agentResult := Except.ok { message := none },
        askResult := Except.error "judge transport failed" } []).fst =
      Except.error (TaskError.judgeFailed "judge transport failed") ∧
    (onlineMind2Web none [("computer-use-preview", "openai")] "computer-use-preview"
      { website := some "https://example.com", confirmed_task := some "t" }
      { gotoResult := Except.ok (), agentResult := Except.ok { message := none },
        askResult := Except.error "judge transport failed" } []).fst =
      Except.error (TaskError.judgeFailed "judge transport failed") ∧
    (gaia none [("computer-use-preview", "openai")] "computer-use-preview"
      { web := some "https://example.com", ques := some "q" }
      { gotoResult := Except.ok (), agentResult := Except.ok { message := none },
        askResult := Except.error "judge transport failed" }).fst =
      Except.error (TaskError.judgeFailed "judge transport failed") :=
  ⟨judge_failure_propagates.1 none [("computer-use-preview", "openai")]
      "computer-use-preview" _ _ [] "judge transport failed" { message := none }
      rfl rfl (by decide) rfl rfl,
   judge_failure_propagates.2.1 none [("computer-use-preview", "openai")]
      "computer-use-preview" _ _ [] "judge transport failed" { message := none }
      rfl rfl (by decide) rfl rfl,
   judge_failure_propagates.2.2 none [("computer-use-preview", "openai")]
      "computer-use-preview" _ _ "judge transport failed" { message := none }
      rfl rfl (by decide) rfl rfl⟩

/-- C4: for a model with no entry in the registry, each task returns a
structured failure naming the supported models, and its trace holds only the
navigation: the agent adapter execute is never invoked. -/
theorem unsupported_model_short_circuit :
    (∀ env reg m (p : WebvoyagerParams) o fr,
      (jsFalsy p.web || jsFalsy p.ques) = false →
      o.gotoResult = Except.ok () →
      m ∉ reg.map Prod.fst →
      webvoyager env reg m p o fr =
        (Except.ok { success := false, error := some (unsupportedModelMsg reg m) },
         [Action.goto (p.web.getD "")])) ∧
    (∀ env reg m (p : OnlineMind2WebParams) o fr,
      (jsFalsy p.website || jsFalsy p.confirmed_task) = false →
      o.gotoResult = Except.ok () →
      m ∉ reg.map Prod.fst →
      onlineMind2Web env reg m p o fr =
        (Except.ok { success := false, error := some (unsupportedModelMsg reg m) },
         [Action.goto (p.website.getD "")])) ∧
    (∀ env reg m (p : GaiaParams) o,
      (jsFalsy p.web || jsFalsy p.ques) = false →
      o.gotoResult = Except.ok () →
      m ∉ reg.map Prod.fst →
      gaia env reg m p o =
        (Except.ok { success := false, error := some (unsupportedModelMsg reg m) },
         [Action.goto (p.web.getD "")])) := by
  refine ⟨fun env reg m p o fr h1 h2 h3 => ?_,
    fun env reg m p o fr h1 h2 h3 => ?_,
    fun env reg m p o h1 h2 h3 => ?_⟩
  · simp [webvoyager, h1, h2, h3]
  · simp [onlineMind2Web, h1, h2, h3]
  · simp [gaia, h1, h2, h3]

/-- Witness for C4: a model absent from a concrete registry short-circuits
each task after navigation. -/
theorem unsupported_model_short_circuit_witness :
    webvoyager none [("computer-use-preview", "openai")] "some-other-model"
      { web := some "https://example.com", ques := some "q" }
      { gotoResult := Except.ok (), agentResult := Except.ok { message := none },
        askResult := Except.ok { evaluation := "NO", reasoning := "" } } [] =
      (Except.ok
        { success := false,
          error := some (unsupportedModelMsg
            [("computer-use-preview", "openai")] "some-other-model") },
       [Action.goto "https://example.com"]) ∧
    onlineMind2Web none [("computer-use-preview", "openai")] "some-other-model"
      { website := some "https://example.com", confirmed_task := some "t" }
      { gotoResult := Except.ok (), agentResult := Except.ok { message := none },
        askResult := Except.ok { evaluation := "NO", reasoning := "" } } [] =
      (Except.ok
        { success := false,
          error := some (unsupportedModelMsg
            [("computer-use-preview", "openai")] "some-other-model") },
       [Action.goto "https://example.com"]) ∧
    gaia none [("computer-use-preview", "openai")] "some-other-model"
      { web := some "https://example.com", ques := some "q" }
      { gotoResult := Except.ok (), agentResult := Except.ok { message := none },
        askResult := Except.ok { evaluation := "NO", reasoning := "" } } =
      (Except.ok
        { success := false,
          error := some (unsupportedModelMsg
            [("computer-use-preview", "openai")] "some-other-model") },
       [Action.goto "https://example.com"]) :=
  ⟨unsupported_model_short_circuit.1 none [("computer-use-preview", "openai")]
      "some-other-model" _ _ [] rfl rfl (by decide),
   unsupported_model_short_circuit.2.1 none [("computer-use-preview", "openai")]
      "some-other-model" _ _ [] rfl rfl (by decide),
   unsupported_model_short_circuit.2.2 none [("computer-use-preview", "openai")]
      "some-other-model" _ _ rfl rfl (by decide)⟩

/-- C8 counterexample: with the override string 0 supplied, the webvoyager
step budget is the dataset default 75, not the supplied override value 0. -/
theorem maxSteps_zero_override_counterexample :
    computeMaxSteps (some "0") 75 = 75 ∧ jsNumber (some "0") = some 0 ∧
      computeMaxSteps (some "0") 75 ≠ 0 := by
  refine ⟨by decide, by decide, by decide⟩

/-- C8 (amended): the step budget equals the numeric value of the
AGENT_EVAL_MAX_STEPS override when that converts to a nonzero number and the
dataset default otherwise; the tasks pass the defaults 75 (webvoyager), 80
(onlineMind2Web) and 50 (gaia), visible in the agentExecute action of their
traces. -/
theorem maxSteps_override_with_defaults :
    (∀ (s : String) (n d : Int), jsNumber (some s) = some n → n ≠ 0 →
      computeMaxSteps (some s) d = n) ∧
    (∀ d : Int, computeMaxSteps none d = d) ∧
    (∀ env reg m (p : WebvoyagerParams) o fr,
      (jsFalsy p.web || jsFalsy p.ques) = false →
      o.gotoResult = Except.ok () →
      m ∈ reg.map Prod.fst →
      Action.agentExecute (p.ques.getD "") (computeMaxSteps env 75) ∈
        (webvoyager env reg m p o fr).snd) ∧
    (∀ env reg m (p : OnlineMind2WebParams) o fr,
      (jsFalsy p.website || jsFalsy p.confirmed_task) = false →
      o.gotoResult = Except.ok () →
      m ∈ reg.map Prod.fst →
      Action.agentExecute (p.confirmed_task.getD "") (computeMaxSteps env 80) ∈
        (onlineMind2Web env reg m p o fr).snd) ∧
    (∀ env reg m (p : GaiaParams) o,
      (jsFalsy p.web || jsFalsy p.ques) = false →
      o.gotoResult = Except.ok () →
      m ∈ reg.map Prod.fst →
      Action.agentExecute (p.ques.getD "") (computeMaxSteps env 50) ∈
        (gaia env reg m p o).snd) := by
  refine ⟨?_, fun d => rfl, ?_, ?_, ?_⟩
  · intro s n d hn hnz
    simp [computeMaxSteps, hn, hnz]
  · intro env reg m p o fr h1 h2 h3
    cases ha : o.agentResult with
    | error e => simp [webvoyager, h1, h2, h3, ha]
    | ok ar =>
      cases hk : o.askResult with
      | error e => simp [webvoyager, h1, h2, h3, ha, hk]
      | ok v => simp [webvoyager, h1, h2, h3, ha, hk]
  · intro env reg m p o fr h1 h2 h3
    cases ha : o.agentResult with
    | error e => simp [onlineMind2Web, h1, h2, h3, ha]
    | ok ar =>
      cases hk : o.askResult with
      | error e => simp [onlineMind2Web, h1, h2, h3, ha, hk]
      | ok v =>
        simp [onlineMind2Web, h1, h2, h3, ha, hk, apply_ite Prod.snd]
  · intro env reg m p o h1 h2 h3
    cases ha : o.agentResult with
    | error e => simp [gaia, h1, h2, h3, ha]
    | ok ar =>
      cases hk : o.askResult with
      | error e => simp [gaia, h1, h2, h3, ha, hk]
      | ok v => simp [gaia, h1, h2, h3, ha, hk]

/-- Witness for the amended C8: a nonzero override of 60 is used, and absent
an override webvoyager runs with budget 75. -/
theorem maxSteps_override_with_defaults_witness :
    computeMaxSteps (some "60") 75 = 60 ∧
    computeMaxSteps none 80 = 80 ∧
    Action.agentExecute "find the price" (computeMaxSteps none 75) ∈
      (webvoyager none [("computer-use-preview", "openai")] "computer-use-preview"
        { web := some "https://example.com", ques := some "find the price" }
        { gotoResult := Except.ok (), agentResult := Except.ok { message := none },
          askResult := Except.ok { evaluation := "YES", reasoning := "ok" } }
        []).snd :=
  ⟨maxSteps_override_with_defaults.1 "60" 60 75 (by decide) (by decide),
   maxSteps_override_with_defaults.2.1 80,
   maxSteps_override_with_defaults.2.2.1 none
     [("computer-use-preview", "openai")] "computer-use-preview" _ _ []
     rfl rfl (by decide)⟩

end StageHand
